import Mathlib

/-!
Verification of the keyword-batched trend-fetch and tabular normalization
pipeline implemented in `dashboard.py` and `outerwear_dashboard.py`.

The fetch functions are shallowly embedded as pure functions of
  * the credential state (`CLIENT_ID`, an optional string),
  * the request inputs (keyword lists, date strings), and
  * the upstream network, modelled as a function from the issued request to
    the (already JSON-parsed) response.
Each fetch returns the list of upstream requests it issued together with its
outcome: either a raised exception (modelling an uncaught Python exception)
or the returned `(table, message)` pair.  Numeric table values are modelled
with exact rational arithmetic in place of floating point.
-/

/-- Python truthiness of `CLIENT_ID` in `if not CLIENT_ID:`: `None` and the
empty string are falsy, every other string is truthy. -/
def truthy : Option String → Bool
  | none => false
  | some s => !s.isEmpty

/-- One entry of the `keywordGroups` list of a trend-API request body,
`{"groupName": k, "keywords": [k]}` (dashboard.py line 63,
outerwear_dashboard.py line 88). -/
structure KeywordGroup where
  groupName : String
  keywords : List String
deriving DecidableEq

/-- Body of one POST to `/v1/datalab/search` (the fields the two scripts
fill in; `device`/`ages`/`gender` of outerwear_dashboard.py are constant
empty values and carry no information). -/
structure TrendRequest where
  startDate : String
  endDate : String
  timeUnit : String
  keywordGroups : List KeywordGroup
deriving DecidableEq

/-- One data point `{period, ratio}` of a trend-API result entry. -/
structure TrendPoint where
  period : String
  ratioVal : ℚ
deriving DecidableEq

/-- One entry of the `results` list of a trend-API response:
`{"title": ..., "data": [...]}`. -/
structure TrendResult where
  title : String
  data : List TrendPoint
deriving DecidableEq

/-- A trend-API HTTP response, already JSON-parsed: the status code,
the raw body text (`res.text`) and the `results` list (meaningful on
status 200). -/
structure TrendResponse where
  status : Nat
  text : String
  results : List TrendResult
deriving DecidableEq

/-- One row of the normalized trend table: the scripts build, per result
entry `r`, a DataFrame of `r['data']` with an added `keyword = r['title']`
column, then concatenate. -/
structure TrendRow where
  period : String
  ratioVal : ℚ
  keyword : String
deriving DecidableEq

/-- Normalization of a non-empty `results` list (dashboard.py line 67,
outerwear_dashboard.py lines 98-102): one row per data point of each
result entry, tagged with the entry's title, concatenated in order. -/
def normalizeTrend (results : List TrendResult) : List TrendRow :=
  (results.map (fun r => r.data.map (fun d => ⟨d.period, d.ratioVal, r.title⟩))).flatten

/-- Outcome of a fetch call: an uncaught exception or the returned
`(table, message)` pair. -/
inductive FetchResult (τ : Type) where
  | raised (msg : String)
  | returned (pair : Option τ × Option String)
deriving DecidableEq

/-- `fetch_realtime_trend` of dashboard.py (lines 56-69).  It issues a
single POST whose `keywordGroups` lists every input keyword as its own
group — there is no chunking into batches of five.  On a 200 response it
runs `pd.concat` over the per-result DataFrames, which raises `ValueError`
(`"No objects to concatenate"`) when `results` is empty.  `today` stands
for `datetime.now().strftime("%Y-%m-%d")`. -/
def fetch_realtime_trend (cid : Option String) (keywords : List String)
    (today : String) (respond : TrendRequest → TrendResponse) :
    List TrendRequest × FetchResult (List TrendRow) :=
  if truthy cid = false then ([], .returned (none, some "API Key 미설정"))
  else
    let req : TrendRequest :=
      { startDate := "2025-01-01", endDate := today, timeUnit := "date",
        keywordGroups := keywords.map (fun k => ⟨k, [k]⟩) }
    let res := respond req
    ([req],
      if res.status == 200 then
        if res.results.isEmpty then .raised "No objects to concatenate"
        else .returned (some (normalizeTrend res.results), none)
      else .returned (none, some ("Trend API Error: " ++ toString res.status)))

/-- `fetch_datalab_trend` of outerwear_dashboard.py (lines 68-111).  Lists
longer than five keywords are truncated to the first five (lines 81-82);
one POST is issued; the whole request/processing block is wrapped in
`try/except`, and an empty `results` list yields an empty DataFrame plus
the note `"데이터가 없습니다."`. -/
def fetch_datalab_trend (cid : Option String) (keywords : List String)
    (start_date : String) (time_unit : String) (today : String)
    (respond : TrendRequest → TrendResponse) :
    List TrendRequest × FetchResult (List TrendRow) :=
  if truthy cid = false then ([], .returned (none, some "API Key 미설정"))
  else
    let kws := if keywords.length > 5 then keywords.take 5 else keywords
    let req : TrendRequest :=
      { startDate := start_date, endDate := today, timeUnit := time_unit,
        keywordGroups := kws.map (fun k => ⟨k, [k]⟩) }
    let res := respond req
    ([req],
      if res.status == 200 then
        if res.results.isEmpty then .returned (some [], some "데이터가 없습니다.")
        else .returned (some (normalizeTrend res.results), none)
      else
        .returned (none,
          some ("API Error: " ++ toString res.status ++ " - " ++ res.text)))

/-- One record of the `items` list of a shopping search response
(the fields the scripts read). -/
structure ShopItem where
  title : String
  lprice : String
  mallName : String
  category1 : String
  link : String
  brand : String
deriving DecidableEq

/-- A shopping-search HTTP response, already JSON-parsed. -/
structure ShopResponse where
  status : Nat
  text : String
  items : List ShopItem
deriving DecidableEq

/-- One record of the `items` list of a blog search response. -/
structure BlogItem where
  title : String
  bloggername : String
  postdate : String
  link : String
deriving DecidableEq

/-- A blog-search HTTP response, already JSON-parsed. -/
structure BlogResponse where
  status : Nat
  text : String
  items : List BlogItem
deriving DecidableEq

/-- `fetch_realtime_shopping` of dashboard.py (lines 72-79):
`pd.DataFrame(items)` never raises, so an empty `items` list returns an
empty table with message `None`. -/
def fetch_realtime_shopping (cid : Option String) (keyword : String)
    (respond : String → ShopResponse) : FetchResult (List ShopItem) :=
  if truthy cid = false then .returned (none, some "API Key 미설정")
  else
    let res := respond keyword
    if res.status == 200 then .returned (some res.items, none)
    else .returned (none, some ("Shopping API Error: " ++ toString res.status))

/-- `fetch_realtime_blog` of dashboard.py (lines 82-89). -/
def fetch_realtime_blog (cid : Option String) (keyword : String)
    (respond : String → BlogResponse) : FetchResult (List BlogItem) :=
  if truthy cid = false then .returned (none, some "API Key 미설정")
  else
    let res := respond keyword
    if res.status == 200 then .returned (some res.items, none)
    else .returned (none, some ("Blog API Error: " ++ toString res.status))

/-- `fetch_shop_search` of outerwear_dashboard.py (lines 114-121). -/
def fetch_shop_search (cid : Option String) (keyword : String)
    (respond : String → ShopResponse) : FetchResult (List ShopItem) :=
  if truthy cid = false then .returned (none, some "API Key 미설정")
  else
    let res := respond keyword
    if res.status == 200 then .returned (some res.items, none)
    else .returned (none, some ("Shop API Error: " ++ toString res.status))

/-- One step machine for Python's `str.replace(pat, '')` with a non-empty
literal pattern `p :: pat`: scan left to right; at a match, delete the
occurrence (skip its characters) and continue scanning after it, never
rescanning across the deleted region — exactly CPython's semantics, which
pandas `Series.str.replace(..., regex=False)` delegates to.  `skip` counts
characters of a recognized occurrence still to be dropped. -/
def delOccAux (p : Char) (pat : List Char) : Nat → List Char → List Char
  | _, [] => []
  | skip + 1, _ :: rest => delOccAux p pat skip rest
  | 0, c :: rest =>
    if (p :: pat).isPrefixOf (c :: rest) then delOccAux p pat pat.length rest
    else c :: delOccAux p pat 0 rest

/-- Deletion of every (left-to-right, non-overlapping) occurrence of the
pattern `p :: pat`. -/
def delOcc (p : Char) (pat : List Char) (s : List Char) : List Char :=
  delOccAux p pat 0 s

/-- Python's `s.replace(pat, '')` on strings (empty patterns do not occur
in the scripts). -/
def str_replace_del (pat : String) (s : String) : String :=
  match pat.data with
  | [] => s
  | p :: ps => ⟨delOcc p ps s.data⟩

/-- Title preprocessing of dashboard.py lines 146/188 and
outerwear_dashboard.py line 206:
`title.str.replace('<b>', '').str.replace('</b>', '')`. -/
def preprocess_title (t : String) : String :=
  str_replace_del "</b>" (str_replace_del "<b>" t)

/-- Value of a non-empty all-digit character list, most significant first. -/
def digitsVal (cs : List Char) : Nat :=
  cs.foldl (fun n c => 10 * n + (c.toNat - 48)) 0

/-- Price coercion `pd.to_numeric(..., errors='coerce')` of dashboard.py
line 145 and outerwear_dashboard.py line 205, modelled on the integer
literals that price fields hold: an optional sign followed by one or more
digits parses to the corresponding integer, anything else (comma-grouped
strings, words, the empty string) coerces to missing.  The library also
accepts fractional and exponent forms, which never arise for the upstream
`lprice` field and are outside this model.  The function is total: no
input raises. -/
def to_numeric_coerce (s : String) : Option Int :=
  match s.data with
  | [] => none
  | '-' :: rest =>
    if rest ≠ [] ∧ rest.all Char.isDigit then some (-(digitsVal rest : Int))
    else none
  | '+' :: rest =>
    if rest ≠ [] ∧ rest.all Char.isDigit then some (digitsVal rest : Int)
    else none
  | c :: rest =>
    if (c :: rest).all Char.isDigit then some (digitsVal (c :: rest) : Int)
    else none

/-- Modelled from the spec: the Time-Boxed Cache is provided entirely by
the hosting framework's `st.cache_data(ttl=600)` decorator (dashboard.py
lines 55/71/81, outerwear_dashboard.py lines 67/113); only the expiry
constant 600 is repository code.  Per the spec, a cache maps a key to an
optional `(createdAt, value)` entry; an entry is live while its age is
strictly below the ttl. -/
def CacheState (κ α : Type) : Type := κ → Option (Nat × α)

/-- Modelled from the spec: one cache-wrapped call at time `now`.  A live
entry (age `< ttl`) is returned without invoking the underlying operation;
otherwise the operation runs, its result is stored with the current
timestamp (overwriting any stale entry), and returned.  The last component
counts how often the underlying operation was invoked (0 or 1). -/
def cachedCall {κ α : Type} [DecidableEq κ] (ttl : Nat) (f : κ → α)
    (st : CacheState κ α) (now : Nat) (k : κ) :
    α × CacheState κ α × Nat :=
  match st k with
  | some (t0, v) =>
    if now - t0 < ttl then (v, st, 0)
    else
      let v := f k
      (v, fun x => if x = k then some (now, v) else st x, 1)
  | none =>
    let v := f k
    (v, fun x => if x = k then some (now, v) else st x, 1)

/-- A cell value of a DataFrame: the trend table holds date strings,
keyword strings and numeric ratios. -/
inductive Value where
  | str (s : String)
  | num (q : ℚ)
deriving DecidableEq

/-- One DataFrame row as an ordered association list from column name to
value; in-place column assignment appends a column to every row. -/
abbrev DfRow : Type := List (String × Value)

/-- Value of a named column of a row. -/
def lookupCol (nm : String) (r : DfRow) : Option Value :=
  (r.find? (fun p => p.1 == nm)).map (fun p => p.2)

/-- Keyword column of a table, in row order. -/
def colKeywords (df : List DfRow) : List String :=
  df.filterMap (fun r =>
    match lookupCol "keyword" r with
    | some (.str k) => some k
    | _ => none)

/-- Insert a string into an ascending list, dropping duplicates —
the key order `pandas.groupby` produces (`sort=True` default). -/
def insertUniqAsc (s : String) : List String → List String
  | [] => [s]
  | y :: ys =>
    if s < y then s :: y :: ys
    else if s = y then y :: ys
    else y :: insertUniqAsc s ys

/-- Sorted distinct group keys. -/
def sortedUnique (l : List String) : List String :=
  l.foldr insertUniqAsc []

/-- Ratio values of the rows of one keyword group. -/
def ratiosFor (df : List DfRow) (k : String) : List ℚ :=
  df.filterMap (fun r =>
    match lookupCol "keyword" r, lookupCol "ratio" r with
    | some (.str k2), some (.num q) => if k2 = k then some q else none
    | _, _ => none)

/-- Mean of a list of rationals (groups produced by `groupby` are never
empty, so the `0/0 = 0` junk value of the empty list is never consumed). -/
def meanQ (l : List ℚ) : ℚ :=
  l.sum / l.length

/-- Stable descending insertion by the numeric component, for
`sort_values('ratio', ascending=False)`. -/
def insDesc (x : String × ℚ) : List (String × ℚ) → List (String × ℚ)
  | [] => [x]
  | y :: ys => if y.2 < x.2 then x :: y :: ys else y :: insDesc x ys

/-- Descending stable sort by the numeric component. -/
def sortDescRatio (l : List (String × ℚ)) : List (String × ℚ) :=
  l.foldr insDesc []

/-- dashboard.py line 125:
`df_trend.groupby('keyword')['ratio'].mean().reset_index()
  .sort_values('ratio', ascending=False)`.
The operation is returned together with the table it was applied to, so
that its (absent) effect on the input is part of the embedding. -/
def avg_df_op (df : List DfRow) : List DfRow × List (String × ℚ) :=
  (df, sortDescRatio ((sortedUnique (colKeywords df)).map
    (fun k => (k, meanQ (ratiosFor df k)))))

/-- English weekday name of a calendar date via Zeller's congruence,
modelling `pandas .dt.day_name()`. -/
def zellerName (y m d : Nat) : String :=
  let ym := if m ≤ 2 then (y - 1, m + 12) else (y, m)
  let K := ym.1 % 100
  let J := ym.1 / 100
  let h := (d + 13 * (ym.2 + 1) / 5 + K + K / 4 + J / 4 + 5 * J) % 7
  ["Saturday", "Sunday", "Monday", "Tuesday", "Wednesday", "Thursday",
    "Friday"].getD h ""

/-- Split a character list on a separator character. -/
def splitOnChar (sep : Char) : List Char → List (List Char)
  | [] => [[]]
  | c :: rest =>
    if c = sep then [] :: splitOnChar sep rest
    else
      match splitOnChar sep rest with
      | [] => [[c]]
      | h :: t => (c :: h) :: t

/-- Numeric value of a non-empty all-digit character list, `none`
otherwise. -/
def digitsToNat (cs : List Char) : Option Nat :=
  if cs ≠ [] ∧ cs.all Char.isDigit then some (digitsVal cs) else none

/-- Weekday name of a `YYYY-MM-DD` date string. -/
def weekdayName (s : String) : String :=
  match (splitOnChar '-' s.data).map digitsToNat with
  | [some y, some m, some d] => zellerName y m d
  | _ => ""

/-- Effect of `df['day_name'] = df['period'].dt.day_name()`
(outerwear_dashboard.py line 308) on one row: a `day_name` column is
appended in place. -/
def addDayName (r : DfRow) : DfRow :=
  r ++ [("day_name",
    Value.str (match lookupCol "period" r with
      | some (.str s) => weekdayName s
      | _ => ""))]

/-- The fixed categorical day order of outerwear_dashboard.py line 309. -/
def daysOrder : List String :=
  ["Monday", "Tuesday", "Wednesday", "Thursday", "Friday", "Saturday",
    "Sunday"]

/-- Mean as an optional value: a pivot cell with no observations is
missing, not zero. -/
def meanOptQ (l : List ℚ) : Option ℚ :=
  if l.isEmpty then none else some (meanQ l)

/-- Ratio values of the rows with the given `day_name` and `keyword`. -/
def ratiosForDay (df : List DfRow) (d k : String) : List ℚ :=
  df.filterMap (fun r =>
    match lookupCol "day_name" r, lookupCol "keyword" r,
        lookupCol "ratio" r with
    | some (.str d2), some (.str k2), some (.num q) =>
      if d2 = d ∧ k2 = k then some q else none
    | _, _, _ => none)

/-- `pivot_table(index='day_name', columns='keyword', values='ratio',
aggfunc='mean')` over the categorical day order. -/
def day_pivot (df : List DfRow) : List (String × List (Option ℚ)) :=
  daysOrder.map (fun d =>
    (d, (sortedUnique (colKeywords df)).map
      (fun k => meanOptQ (ratiosForDay df d k))))

/-- outerwear_dashboard.py lines 308-311: the day-of-week pivot
preparation.  It first assigns the `day_name` column to the input table
in place and then pivots; the pair returned is (state of the input table
after the operation, pivot result). -/
def day_name_prep_op (df : List DfRow) :
    List DfRow × List (String × List (Option ℚ)) :=
  let df2 := df.map addDayName
  (df2, day_pivot df2)

/-- Values present (non-missing) in a pivot column. -/
def presentVals (x : List (Option ℚ)) : List ℚ :=
  x.filterMap id

/-- Keep a position of a zipped column pair only when both columns hold a
value there. -/
def pairOpt : Option ℚ × Option ℚ → Option (ℚ × ℚ)
  | (some a, some b) => some (a, b)
  | _ => none

/-- Pairwise-complete observations of two pivot columns: positions where
both columns hold a value, as `pandas.DataFrame.corr` uses them. -/
def paired (x y : List (Option ℚ)) : List (ℚ × ℚ) :=
  (x.zip y).filterMap pairOpt

/-- Scaled variance `n·Σa² − (Σa)²` of a list of values. -/
def varNum (l : List ℚ) : ℚ :=
  l.length * (l.map (fun a => a * a)).sum - l.sum * l.sum

/-- Sum of first components. -/
def sumX (p : List (ℚ × ℚ)) : ℚ := (p.map (fun q => q.1)).sum

/-- Sum of second components. -/
def sumY (p : List (ℚ × ℚ)) : ℚ := (p.map (fun q => q.2)).sum

/-- Sum of products. -/
def sumXY (p : List (ℚ × ℚ)) : ℚ := (p.map (fun q => q.1 * q.2)).sum

/-- Sum of squared first components. -/
def sumX2 (p : List (ℚ × ℚ)) : ℚ := (p.map (fun q => q.1 * q.1)).sum

/-- Sum of squared second components. -/
def sumY2 (p : List (ℚ × ℚ)) : ℚ := (p.map (fun q => q.2 * q.2)).sum

/-- Scaled covariance `n·Σxy − Σx·Σy` of the paired observations. -/
def sxy (p : List (ℚ × ℚ)) : ℚ := p.length * sumXY p - sumX p * sumY p

/-- Scaled variance `n·Σx² − (Σx)²` of the first components. -/
def sxx (p : List (ℚ × ℚ)) : ℚ := p.length * sumX2 p - sumX p * sumX p

/-- Scaled variance of the second components. -/
def syy (p : List (ℚ × ℚ)) : ℚ := p.length * sumY2 p - sumY p * sumY p

/-- One entry of `DataFrame.corr()` (Pearson, pairwise complete) in exact
arithmetic.  The floating-point value the library displays is
`n / Real.sqrt d` for `some (n, d)`; a zero denominator (a constant or
insufficiently observed column) yields NaN, modelled as `none`. -/
def corrEntry (x y : List (Option ℚ)) : Option (ℚ × ℚ) :=
  let p := paired x y
  let d := sxx p * syy p
  if d = 0 then none else some (sxy p, d)

/-- `pivot_df.corr()` of outerwear_dashboard.py lines 186 and 383, over
the pivot's columns. -/
def corrMatrix (cols : List (List (Option ℚ))) :
    List (List (Option (ℚ × ℚ))) :=
  cols.map (fun x => cols.map (fun y => corrEntry x y))

/-- Entry `(i, j)` of the correlation matrix, `none` when out of range. -/
def entryAt (cols : List (List (Option ℚ))) (i j : Nat) :
    Option (Option (ℚ × ℚ)) :=
  ((corrMatrix cols).get? i).bind (fun row => row.get? j)

/-- Whether a matrix entry represents the exact value `1.0`: its
displayed value is `n / √d`, which equals one precisely when `n` is
positive and `d = n²`. -/
def reprOneB : Option (ℚ × ℚ) → Bool
  | none => false
  | some (n, d) => decide (0 < n) && (n * n == d)

theorem str_data_append (s t : String) : (s ++ t).data = s.data ++ t.data :=
  String.data_append s t

/-- C3: in truncate mode (`fetch_datalab_trend`), exactly one upstream
request is issued; its keyword groups are, in input order, exactly the
first `min (L, 5)` keywords of the input, each as its own group. -/
theorem c3_truncate_single_group (cid : Option String) (kws : List String)
    (sd tu today : String) (respond : TrendRequest → TrendResponse)
    (h : truthy cid = true) :
    (fetch_datalab_trend cid kws sd tu today respond).fst.map
        (fun q => q.keywordGroups.map (fun g => g.groupName)) = [kws.take 5]
    ∧ (kws.take 5).length = min kws.length 5
    ∧ kws.take 5 <+: kws := by
  have hk : (if kws.length > 5 then kws.take 5 else kws) = kws.take 5 := by
    split
    · rfl
    · exact (List.take_of_length_le (by omega)).symm
  refine ⟨?_, ?_, List.take_prefix 5 kws⟩
  · simp only [fetch_datalab_trend, h, hk, Bool.true_eq_false, if_false,
      List.map_cons, List.map_nil, List.map_map, List.cons.injEq, and_true]
    rw [show ((fun g : KeywordGroup => g.groupName)
        ∘ fun k => ({ groupName := k, keywords := [k] } : KeywordGroup))
        = fun k => k from rfl]
    simp [List.map_id']
  · simp [List.length_take, Nat.min_comm]

/-- Witness for C3 at the seven outerwear keywords. -/
theorem c3_truncate_single_group_witness :
    (fetch_datalab_trend (some "id")
        ["패딩", "항공점퍼", "바람막이", "블루종", "플리스점퍼", "야상점퍼", "후드점퍼"]
        "2025-01-01" "date" "2025-10-12" (fun _ => ⟨200, "", []⟩)).fst.map
        (fun q => q.keywordGroups.map (fun g => g.groupName))
      = [["패딩", "항공점퍼", "바람막이", "블루종", "플리스점퍼", "야상점퍼", "후드점퍼"].take 5]
    ∧ (["패딩", "항공점퍼", "바람막이", "블루종", "플리스점퍼", "야상점퍼", "후드점퍼"].take 5).length
      = min (["패딩", "항공점퍼", "바람막이", "블루종", "플리스점퍼", "야상점퍼", "후드점퍼"] : List String).length 5
    ∧ (["패딩", "항공점퍼", "바람막이", "블루종", "플리스점퍼", "야상점퍼", "후드점퍼"] : List String).take 5
      <+: ["패딩", "항공점퍼", "바람막이", "블루종", "플리스점퍼", "야상점퍼", "후드점퍼"] :=
  c3_truncate_single_group (some "id") _ "2025-01-01" "date" "2025-10-12" _ rfl

/-- C1 counterexample: with the six keywords of the end-to-end scenario,
`fetch_realtime_trend` issues exactly one upstream call carrying all six
keyword groups (not two calls of sizes 5 and 1), and `fetch_datalab_trend`
issues exactly one call carrying five groups. -/
theorem c1_counterexample :
    (fetch_realtime_trend (some "cid") ["x", "y", "z", "w", "v", "u"]
        "2025-10-12" (fun _ => ⟨200, "", []⟩)).fst.map
        (fun q => q.keywordGroups.length) = [6]
    ∧ (fetch_datalab_trend (some "cid") ["x", "y", "z", "w", "v", "u"]
        "2025-01-01" "date" "2025-10-12" (fun _ => ⟨200, "", []⟩)).fst.map
        (fun q => q.keywordGroups.length) = [5] := by
  exact ⟨rfl, rfl⟩

/-- C1 (amended): no code path batches keywords into groups of at most
five; `fetch_realtime_trend` always issues exactly one upstream call whose
keyword groups are all L input keywords, in input order, so the
concatenation of the issued groups trivially equals the input; and every
result entry with a non-empty data list contributes rows tagged with its
title to the combined normalized table. -/
theorem c1_single_unbatched_call (cid : Option String) (kws : List String)
    (today : String) (respond : TrendRequest → TrendResponse)
    (h : truthy cid = true) :
    (fetch_realtime_trend cid kws today respond).fst.map
        (fun q => q.keywordGroups.map (fun g => g.groupName)) = [kws]
    ∧ ∀ res : List TrendResult, ∀ r ∈ res, r.data ≠ [] →
        r.title ∈ (normalizeTrend res).map (fun row => row.keyword) := by
  constructor
  · simp only [fetch_realtime_trend, h, Bool.true_eq_false, if_false,
      List.map_cons, List.map_nil, List.map_map, List.cons.injEq, and_true]
    rw [show ((fun g : KeywordGroup => g.groupName)
        ∘ fun k => ({ groupName := k, keywords := [k] } : KeywordGroup))
        = fun k => k from rfl]
    exact List.map_id' kws
  · intro res r hr hd
    obtain ⟨d, hdm⟩ := List.exists_mem_of_ne_nil r.data hd
    refine List.mem_map.mpr ⟨⟨d.period, d.ratioVal, r.title⟩, ?_, rfl⟩
    unfold normalizeTrend
    refine List.mem_flatten.mpr
      ⟨r.data.map (fun d => ⟨d.period, d.ratioVal, r.title⟩),
        List.mem_map_of_mem _ hr, List.mem_map_of_mem _ hdm⟩

/-- Witness for C1 (amended) at the six-keyword scenario input. -/
theorem c1_single_unbatched_call_witness :
    (fetch_realtime_trend (some "cid") ["x", "y", "z", "w", "v", "u"]
        "2025-10-12" (fun _ => ⟨200, "", []⟩)).fst.map
        (fun q => q.keywordGroups.map (fun g => g.groupName))
      = [["x", "y", "z", "w", "v", "u"]]
    ∧ ∀ res : List TrendResult, ∀ r ∈ res, r.data ≠ [] →
        r.title ∈ (normalizeTrend res).map (fun row => row.keyword) :=
  c1_single_unbatched_call (some "cid") _ "2025-10-12" _ rfl

/-- C2 counterexample: on a 200 response whose `results` list is empty,
`fetch_realtime_trend` raises (`pd.concat` of an empty DataFrame list)
instead of returning an empty table with a note. -/
theorem c2_counterexample :
    (fetch_realtime_trend (some "cid") ["오메가3"] "2025-10-12"
        (fun _ => ⟨200, "", []⟩)).snd
      = FetchResult.raised "No objects to concatenate" := rfl

/-- C2 (amended): `fetch_datalab_trend` maps an empty `results` list to
the pair (empty table, note `"데이터가 없습니다."`) without raising, and
the item fetchers map an empty `items` list to (empty table, no message);
`fetch_realtime_trend`, by contrast, raises on an empty `results` list. -/
theorem c2_empty_is_valid_state (cid : Option String) (kws : List String)
    (sd tu today kw : String) (tresp : TrendRequest → TrendResponse)
    (sresp : String → ShopResponse)
    (h : truthy cid = true)
    (ht : ∀ q, (tresp q).status = 200 ∧ (tresp q).results = [])
    (hs : ∀ k, (sresp k).status = 200 ∧ (sresp k).items = []) :
    (fetch_datalab_trend cid kws sd tu today tresp).snd
      = .returned (some [], some "데이터가 없습니다.")
    ∧ fetch_realtime_shopping cid kw sresp = .returned (some [], none) := by
  have ht1 : ∀ q, (tresp q).status = 200 := fun q => (ht q).1
  have ht2 : ∀ q, (tresp q).results = [] := fun q => (ht q).2
  constructor
  · simp [fetch_datalab_trend, h, ht1, ht2]
  · simp [fetch_realtime_shopping, h, (hs kw).1, (hs kw).2]

/-- Witness for C2 (amended) on a concrete empty 200 response. -/
theorem c2_empty_is_valid_state_witness :
    (fetch_datalab_trend (some "cid") ["패딩"] "2025-01-01" "date"
        "2025-10-12" (fun _ => ⟨200, "", []⟩)).snd
      = .returned (some [], some "데이터가 없습니다.")
    ∧ fetch_realtime_shopping (some "cid") "패딩" (fun _ => ⟨200, "", []⟩)
      = .returned (some [], none) :=
  c2_empty_is_valid_state (some "cid") _ "2025-01-01" "date" "2025-10-12"
    "패딩" _ _ rfl (fun _ => ⟨rfl, rfl⟩) (fun _ => ⟨rfl, rfl⟩)

/-- C7 counterexample: on a 500 response with body `"UPSTREAM-BODY"`,
`fetch_realtime_trend` returns the message `"Trend API Error: 500"`, which
does not contain the response body text. -/
theorem c7_counterexample :
    (fetch_realtime_trend (some "cid") ["k"] "2025-10-12"
        (fun _ => ⟨500, "UPSTREAM-BODY", []⟩)).snd
      = .returned (none, some "Trend API Error: 500")
    ∧ ¬ ("UPSTREAM-BODY".data <:+: "Trend API Error: 500".data) := by
  exact ⟨rfl, by decide⟩

/-- C7 (amended): on every non-200 status, every fetch operation returns
no table and an error message containing the decimal status code; only
`fetch_datalab_trend` additionally includes the response body text, the
other four fetchers omit it. -/
theorem c7_error_carries_status (cid : Option String) (st : Nat)
    (txt : String) (kws : List String) (kw sd tu today : String)
    (h : truthy cid = true) (hne : st ≠ 200) :
    ((fetch_realtime_trend cid kws today (fun _ => ⟨st, txt, []⟩)).snd
      = .returned (none, some ("Trend API Error: " ++ toString st)))
    ∧ ((fetch_datalab_trend cid kws sd tu today (fun _ => ⟨st, txt, []⟩)).snd
      = .returned (none, some ("API Error: " ++ toString st ++ " - " ++ txt)))
    ∧ (fetch_realtime_shopping cid kw (fun _ => ⟨st, txt, []⟩)
      = .returned (none, some ("Shopping API Error: " ++ toString st)))
    ∧ (fetch_realtime_blog cid kw (fun _ => ⟨st, txt, []⟩)
      = .returned (none, some ("Blog API Error: " ++ toString st)))
    ∧ (fetch_shop_search cid kw (fun _ => ⟨st, txt, []⟩)
      = .returned (none, some ("Shop API Error: " ++ toString st)))
    ∧ (toString st).data <:+: ("Trend API Error: " ++ toString st).data
    ∧ (toString st).data
        <:+: ("API Error: " ++ toString st ++ " - " ++ txt).data
    ∧ txt.data <:+: ("API Error: " ++ toString st ++ " - " ++ txt).data
    ∧ (toString st).data <:+: ("Shopping API Error: " ++ toString st).data := by
  have hb : (st == 200) = false := beq_eq_false_iff_ne.mpr hne
  refine ⟨?_, ?_, ?_, ?_, ?_, ?_, ?_, ?_, ?_⟩
  · simp [fetch_realtime_trend, h, hb]
  · simp [fetch_datalab_trend, h, hb]
  · simp [fetch_realtime_shopping, h, hb]
  · simp [fetch_realtime_blog, h, hb]
  · simp [fetch_shop_search, h, hb]
  · rw [str_data_append]
    exact (List.suffix_append _ _).isInfix
  · refine ⟨"API Error: ".data, " - ".data ++ txt.data, ?_⟩
    simp [str_data_append]
  · rw [str_data_append]
    exact (List.suffix_append _ _).isInfix
  · rw [str_data_append]
    exact (List.suffix_append _ _).isInfix

/-- Witness for C7 (amended) at status 404 and body `"not found"`. -/
theorem c7_error_carries_status_witness :
    ((fetch_realtime_trend (some "cid") ["k"] "2025-10-12"
        (fun _ => ⟨404, "not found", []⟩)).snd
      = .returned (none, some ("Trend API Error: " ++ toString 404)))
    ∧ ((fetch_datalab_trend (some "cid") ["k"] "2025-01-01" "date"
        "2025-10-12" (fun _ => ⟨404, "not found", []⟩)).snd
      = .returned (none,
          some ("API Error: " ++ toString 404 ++ " - " ++ "not found")))
    ∧ (fetch_realtime_shopping (some "cid") "k"
        (fun _ => ⟨404, "not found", []⟩)
      = .returned (none, some ("Shopping API Error: " ++ toString 404)))
    ∧ (fetch_realtime_blog (some "cid") "k"
        (fun _ => ⟨404, "not found", []⟩)
      = .returned (none, some ("Blog API Error: " ++ toString 404)))
    ∧ (fetch_shop_search (some "cid") "k" (fun _ => ⟨404, "not found", []⟩)
      = .returned (none, some ("Shop API Error: " ++ toString 404)))
    ∧ (toString 404).data <:+: ("Trend API Error: " ++ toString 404).data
    ∧ (toString 404).data
        <:+: ("API Error: " ++ toString 404 ++ " - " ++ "not found").data
    ∧ ("not found" : String).data
        <:+: ("API Error: " ++ toString 404 ++ " - " ++ "not found").data
    ∧ (toString 404).data
        <:+: ("Shopping API Error: " ++ toString 404).data :=
  c7_error_carries_status (some "cid") 404 "not found" ["k"] "k"
    "2025-01-01" "date" "2025-10-12" rfl (by decide)

/-- C10: every pair actually returned by any of the five fetch operations
has at least one non-`None` component: a `None` table comes with a message
string, and a `None` message comes with a table. -/
theorem c10_never_both_none (cid : Option String) (kws : List String)
    (today sd tu kw : String) (tresp : TrendRequest → TrendResponse)
    (sresp : String → ShopResponse) (bresp : String → BlogResponse) :
    (∀ t m, (fetch_realtime_trend cid kws today tresp).snd
      = .returned (t, m) → ¬(t = none ∧ m = none))
    ∧ (∀ t m, (fetch_datalab_trend cid kws sd tu today tresp).snd
      = .returned (t, m) → ¬(t = none ∧ m = none))
    ∧ (∀ t m, fetch_realtime_shopping cid kw sresp
      = .returned (t, m) → ¬(t = none ∧ m = none))
    ∧ (∀ t m, fetch_realtime_blog cid kw bresp
      = .returned (t, m) → ¬(t = none ∧ m = none))
    ∧ (∀ t m, fetch_shop_search cid kw sresp
      = .returned (t, m) → ¬(t = none ∧ m = none)) := by
  refine ⟨?_, ?_, ?_, ?_, ?_⟩ <;>
    · intro t m h hc
      rcases hc with ⟨rfl, rfl⟩
      first
        | simp only [fetch_realtime_trend] at h
        | simp only [fetch_datalab_trend] at h
        | simp only [fetch_realtime_shopping] at h
        | simp only [fetch_realtime_blog] at h
        | simp only [fetch_shop_search] at h
      split at h <;> (try split at h) <;> (try split at h) <;>
        (try split at h) <;> simp_all

/-- Witness for C10: the missing-credential pair of `fetch_realtime_trend`
is `(None, "API Key 미설정")`, whose message component is not `None`. -/
theorem c10_never_both_none_witness :
    ¬((none : Option (List TrendRow)) = none
      ∧ (some "API Key 미설정" : Option String) = none) :=
  (c10_never_both_none none ["k"] "2025-10-12" "2025-01-01" "date" "k"
      (fun _ => ⟨200, "", []⟩) (fun _ => ⟨200, "", []⟩)
      (fun _ => ⟨200, "", []⟩)).1
    none (some "API Key 미설정") rfl

/-- C4: with an initially empty cache entry for the key, the first call
invokes the underlying operation; a second call with the identical key
less than 600 seconds later invokes it zero further times and returns the
stored value, while a second call 600 or more seconds later invokes it
again. -/
theorem c4_cache_ttl {κ α : Type} [DecidableEq κ] (f : κ → α) (k : κ)
    (st0 : CacheState κ α) (t1 t2 : Nat)
    (h0 : st0 k = none) (_hle : t1 ≤ t2) :
    (cachedCall 600 f st0 t1 k).2.2 = 1
    ∧ (t2 - t1 < 600 →
        (cachedCall 600 f (cachedCall 600 f st0 t1 k).2.1 t2 k).2.2 = 0
        ∧ (cachedCall 600 f (cachedCall 600 f st0 t1 k).2.1 t2 k).1
          = (cachedCall 600 f st0 t1 k).1)
    ∧ (600 ≤ t2 - t1 →
        (cachedCall 600 f (cachedCall 600 f st0 t1 k).2.1 t2 k).2.2 = 1) := by
  have h1 : cachedCall 600 f st0 t1 k
      = (f k, fun x => if x = k then some (t1, f k) else st0 x, 1) := by
    simp [cachedCall, h0]
  refine ⟨by rw [h1], fun hlt => ?_, fun hge => ?_⟩
  · rw [h1]
    constructor <;> simp [cachedCall, hlt]
  · rw [h1]
    simp [cachedCall, Nat.not_lt.mpr hge]

/-- Witness for C4 with a fake clock: calls at times 0 and 599 share one
underlying invocation; the hypotheses are discharged at this input. -/
theorem c4_cache_ttl_witness :
    (cachedCall 600 (fun _ : String => (42 : Nat))
        ((cachedCall 600 (fun _ : String => (42 : Nat)) (fun _ => none) 0
          "오메가3").2.1) 599 "오메가3").2.2 = 0 :=
  ((c4_cache_ttl (fun _ : String => (42 : Nat)) "오메가3" (fun _ => none) 0
      599 rfl (by decide)).2.1 (by decide)).1

/-- C6: price coercion sends every string containing a comma (such as
`"12,340"`) to missing, sends every plain digit string (such as `"5000"`)
to its numeric value, and, being a total function, raises on no input. -/
theorem c6_price_coercion :
    (∀ s : String, ',' ∈ s.data → to_numeric_coerce s = none)
    ∧ (∀ s : String, s.data ≠ [] → s.data.all Char.isDigit = true →
        to_numeric_coerce s = some (Int.ofNat (digitsVal s.data))) := by
  constructor
  · intro s hmem
    unfold to_numeric_coerce
    have hnd : (',').isDigit = false := by decide
    split
    · simp_all
    · rename_i rest heq
      rw [heq] at hmem
      have : ¬ rest.all Char.isDigit = true := by
        intro hall
        have hm2 : ',' ∈ rest := by
          rcases List.mem_cons.mp hmem with h1 | h2
          · exact absurd h1 (by decide)
          · exact h2
        exact absurd (List.all_eq_true.mp hall ',' hm2) (by simp [hnd])
      simp [this]
    · rename_i rest heq
      rw [heq] at hmem
      have : ¬ rest.all Char.isDigit = true := by
        intro hall
        have hm2 : ',' ∈ rest := by
          rcases List.mem_cons.mp hmem with h1 | h2
          · exact absurd h1 (by decide)
          · exact h2
        exact absurd (List.all_eq_true.mp hall ',' hm2) (by simp [hnd])
      simp [this]
    · rename_i c rest hne1 hne2 heq
      rw [heq] at hmem
      have : ¬ (c :: rest).all Char.isDigit = true := by
        intro hall
        exact absurd (List.all_eq_true.mp hall ',' hmem) (by simp [hnd])
      simp [this]
  · intro s hne hall
    unfold to_numeric_coerce
    split
    · simp_all
    · rename_i rest heq
      rw [heq] at hall
      have : ('-').isDigit = true := List.all_eq_true.mp hall '-' (by simp)
      exact absurd this (by decide)
    · rename_i rest heq
      rw [heq] at hall
      have : ('+').isDigit = true := List.all_eq_true.mp hall '+' (by simp)
      exact absurd this (by decide)
    · rename_i c rest hne1 hne2 heq
      rw [heq]
      rw [heq] at hall
      simp [hall]

/-- Witness for C6 at the spec's two example inputs. -/
theorem c6_price_coercion_witness :
    to_numeric_coerce "12,340" = none
    ∧ to_numeric_coerce "5000" = some 5000 := by
  constructor
  · exact c6_price_coercion.1 "12,340" (by decide)
  · have h := c6_price_coercion.2 "5000" (by decide) (by decide)
    rw [h]
    decide

theorem delOcc_nil (p : Char) (pat : List Char) : delOcc p pat [] = [] := rfl

theorem delOcc_append_of_not_mem (p : Char) (pat : List Char) :
    ∀ (a t : List Char), p ∉ a →
      delOcc p pat (a ++ t) = a ++ delOcc p pat t := by
  intro a
  induction a with
  | nil => intro t _; rfl
  | cons x a ih =>
    intro t ha
    have hx : ¬ (p == x) = true := by
      simp only [beq_iff_eq]
      intro hpx
      exact ha (hpx ▸ List.mem_cons_self x a)
    have hpre : ((p :: pat).isPrefixOf (x :: (a ++ t))) = false := by
      simp [List.isPrefixOf, hx]
    show delOccAux p pat 0 (x :: (a ++ t)) = x :: a ++ delOcc p pat t
    rw [delOccAux, if_neg (by simp [hpre])]
    exact congrArg (x :: ·) (ih t (fun hm => ha (List.mem_cons_of_mem x hm)))

theorem delOcc_open_consume (t : List Char) :
    delOcc '<' ['b', '>'] ('<' :: 'b' :: '>' :: t) = delOcc '<' ['b', '>'] t := by
  show delOccAux '<' ['b', '>'] 0 ('<' :: 'b' :: '>' :: t)
    = delOccAux '<' ['b', '>'] 0 t
  rw [delOccAux, if_pos (by simp [List.isPrefixOf])]
  rfl

theorem delOcc_close_pass (t : List Char) :
    delOcc '<' ['b', '>'] ('<' :: '/' :: 'b' :: '>' :: t)
      = '<' :: '/' :: 'b' :: '>' :: delOcc '<' ['b', '>'] t := by
  have h1 : (('b' : Char) == '/') = false := by decide
  have h2 : (('<' : Char) == '/') = false := by decide
  have h3 : (('<' : Char) == 'b') = false := by decide
  have h4 : (('<' : Char) == '>') = false := by decide
  show delOccAux '<' ['b', '>'] 0 ('<' :: '/' :: 'b' :: '>' :: t)
    = '<' :: '/' :: 'b' :: '>' :: delOccAux '<' ['b', '>'] 0 t
  rw [delOccAux, if_neg (by simp [List.isPrefixOf, h1])]
  rw [delOccAux, if_neg (by simp [List.isPrefixOf, h2])]
  rw [delOccAux, if_neg (by simp [List.isPrefixOf, h3])]
  rw [delOccAux, if_neg (by simp [List.isPrefixOf, h4])]

theorem delOcc_close_consume (t : List Char) :
    delOcc '<' ['/', 'b', '>'] ('<' :: '/' :: 'b' :: '>' :: t)
      = delOcc '<' ['/', 'b', '>'] t := by
  show delOccAux '<' ['/', 'b', '>'] 0 ('<' :: '/' :: 'b' :: '>' :: t)
    = delOccAux '<' ['/', 'b', '>'] 0 t
  rw [delOccAux, if_pos (by simp [List.isPrefixOf])]
  rfl

theorem preprocess_title_mk (l : List Char) :
    preprocess_title ⟨l⟩ = ⟨delOcc '<' ['/', 'b', '>'] (delOcc '<' ['b', '>'] l)⟩ := rfl

/-- C5: for every title of the shape `<b>a</b>b<b>c</b>` whose free
segments contain no `<` character, the preprocessing removes every
occurrence of the literal markers `<b>` and `</b>` — multiple occurrences
included — leaving exactly the concatenation of the segments. -/
theorem c5_title_strips_all_bold (a b c : List Char)
    (ha : '<' ∉ a) (hb : '<' ∉ b) (hc : '<' ∉ c) :
    preprocess_title
        ⟨'<' :: 'b' :: '>' ::
          (a ++ '<' :: '/' :: 'b' :: '>' ::
            (b ++ '<' :: 'b' :: '>' :: (c ++ ['<', '/', 'b', '>'])))⟩
      = ⟨a ++ b ++ c⟩ := by
  rw [preprocess_title_mk]
  have e1 : delOcc '<' ['b', '>']
      ('<' :: 'b' :: '>' ::
        (a ++ '<' :: '/' :: 'b' :: '>' ::
          (b ++ '<' :: 'b' :: '>' :: (c ++ ['<', '/', 'b', '>']))))
      = a ++ '<' :: '/' :: 'b' :: '>' :: (b ++ (c ++ ['<', '/', 'b', '>'])) := by
    rw [delOcc_open_consume, delOcc_append_of_not_mem _ _ _ _ ha,
      delOcc_close_pass, delOcc_append_of_not_mem _ _ _ _ hb,
      delOcc_open_consume, delOcc_append_of_not_mem _ _ _ _ hc,
      delOcc_close_pass, delOcc_nil]
  rw [e1]
  have e2 : delOcc '<' ['/', 'b', '>']
      (a ++ '<' :: '/' :: 'b' :: '>' :: (b ++ (c ++ ['<', '/', 'b', '>'])))
      = a ++ (b ++ (c ++ [])) := by
    rw [delOcc_append_of_not_mem _ _ _ _ ha, delOcc_close_consume,
      delOcc_append_of_not_mem _ _ _ _ hb,
      delOcc_append_of_not_mem _ _ _ _ hc, delOcc_close_consume, delOcc_nil]
  rw [e2]
  simp [List.append_assoc]

/-- Witness for C5 at the spec's example title. -/
theorem c5_title_strips_all_bold_witness :
    preprocess_title "<b>Omega</b>-3 <b>capsule</b>" = "Omega-3 capsule" := by
  have h := c5_title_strips_all_bold "Omega".data "-3 ".data "capsule".data
    (by decide) (by decide) (by decide)
  have e : ("<b>Omega</b>-3 <b>capsule</b>" : String)
      = ⟨'<' :: 'b' :: '>' ::
          ("Omega".data ++ '<' :: '/' :: 'b' :: '>' ::
            ("-3 ".data ++ '<' :: 'b' :: '>' ::
              ("capsule".data ++ ['<', '/', 'b', '>'])))⟩ := by decide
  rw [e, h]
  decide

/-- C8 counterexample: the day-of-week pivot preparation mutates its input
table: on a one-row trend table it appends a `day_name` column (here
`"Monday"` for 2025-01-06) to the input row, so the table after the
operation differs from the table before it. -/
theorem c8_counterexample :
    (day_name_prep_op [[("period", Value.str "2025-01-06"),
        ("ratio", Value.num 10), ("keyword", Value.str "패딩")]]).fst
      ≠ [[("period", Value.str "2025-01-06"), ("ratio", Value.num 10),
        ("keyword", Value.str "패딩")]]
    ∧ lookupCol "day_name"
        ((day_name_prep_op [[("period", Value.str "2025-01-06"),
          ("ratio", Value.num 10),
          ("keyword", Value.str "패딩")]]).fst.getD 0 [])
      = some (Value.str "Monday")
    ∧ lookupCol "day_name"
        ([[("period", Value.str "2025-01-06"), ("ratio", Value.num 10),
          ("keyword", Value.str "패딩")]].getD 0 ([] : DfRow))
      = none := by
  refine ⟨by decide, by decide, by decide⟩

/-- C8 (amended): the grouped aggregation (`groupby('keyword')['ratio']`
mean) is a pure function of the table and leaves it unchanged, but the
day-of-week pivot preparation changes the input table — it leaves the
table unchanged exactly when the table is empty, appending a `day_name`
column to every row otherwise. -/
theorem c8_groupby_pure_day_prep_mutates (df : List DfRow) :
    (avg_df_op df).fst = df
    ∧ ((day_name_prep_op df).fst = df ↔ df = []) := by
  refine ⟨rfl, ?_, ?_⟩
  · intro h
    simp only [day_name_prep_op] at h
    cases df with
    | nil => rfl
    | cons r t =>
      exfalso
      simp only [List.map_cons, List.cons.injEq] at h
      have h2 := congrArg List.length h.1
      simp [addDayName] at h2
  · intro h
    subst h
    rfl

theorem paired_swap (x y : List (Option ℚ)) :
    paired y x = (paired x y).map (fun q => (q.2, q.1)) := by
  induction x generalizing y with
  | nil => simp [paired]
  | cons a x ih =>
    cases y with
    | nil => simp [paired]
    | cons b y =>
      simp only [paired, List.zip_cons_cons, List.filterMap_cons]
      cases a with
      | none =>
        cases b <;> simpa [pairOpt] using ih y
      | some av =>
        cases b with
        | none => simpa [pairOpt] using ih y
        | some bv => simpa [pairOpt] using ih y

theorem sxy_swap (p : List (ℚ × ℚ)) :
    sxy (p.map (fun q => (q.2, q.1))) = sxy p := by
  simp [sxy, sumXY, sumX, sumY, List.map_map, Function.comp_def, mul_comm]

theorem sxx_swap (p : List (ℚ × ℚ)) :
    sxx (p.map (fun q => (q.2, q.1))) = syy p := by
  simp [sxx, syy, sumX, sumY, sumX2, sumY2, List.map_map, Function.comp_def]

theorem syy_swap (p : List (ℚ × ℚ)) :
    syy (p.map (fun q => (q.2, q.1))) = sxx p := by
  simp [sxx, syy, sumX, sumY, sumX2, sumY2, List.map_map, Function.comp_def]

theorem corrEntry_symm (x y : List (Option ℚ)) :
    corrEntry x y = corrEntry y x := by
  simp only [corrEntry]
  rw [paired_swap x y, sxy_swap, sxx_swap, syy_swap,
    mul_comm (syy (paired x y)) (sxx (paired x y))]

theorem paired_self (x : List (Option ℚ)) :
    paired x x = (presentVals x).map (fun a => (a, a)) := by
  induction x with
  | nil => rfl
  | cons a x ih =>
    cases a with
    | none =>
      simpa [paired, presentVals, pairOpt, List.zip_cons_cons,
        List.filterMap_cons] using ih
    | some v =>
      simpa [paired, presentVals, pairOpt, List.zip_cons_cons,
        List.filterMap_cons] using ih

theorem sxx_diag (l : List ℚ) : sxx (l.map (fun a => (a, a))) = varNum l := by
  simp [sxx, sumX, sumX2, varNum, List.map_map, Function.comp_def]

theorem syy_diag (l : List ℚ) : syy (l.map (fun a => (a, a))) = varNum l := by
  simp [syy, sumY, sumY2, varNum, List.map_map, Function.comp_def]

theorem sxy_diag (l : List ℚ) : sxy (l.map (fun a => (a, a))) = varNum l := by
  simp [sxy, sumX, sumY, sumXY, varNum, List.map_map, Function.comp_def]

theorem corr_self_eq (x : List (Option ℚ)) :
    corrEntry x x
      = (if varNum (presentVals x) * varNum (presentVals x) = 0 then none
        else some (varNum (presentVals x),
          varNum (presentVals x) * varNum (presentVals x))) := by
  simp only [corrEntry]
  rw [paired_self, sxy_diag, sxx_diag, syy_diag]

theorem sq_dev_sum (l : List ℚ) (m : ℚ) :
    (l.map (fun a => (a - m) * (a - m))).sum
      = (l.map (fun a => a * a)).sum - 2 * m * l.sum
        + l.length * (m * m) := by
  induction l with
  | nil => simp
  | cons a t ih =>
    simp only [List.map_cons, List.sum_cons, ih, List.length_cons]
    push_cast
    ring

theorem varNum_eq_sq_dev (l : List ℚ) (h : l ≠ []) :
    varNum l
      = l.length *
        (l.map (fun a =>
          (a - l.sum / l.length) * (a - l.sum / l.length))).sum := by
  have hn : (l.length : ℚ) ≠ 0 := by
    have h0 : l.length ≠ 0 := fun h0 => h (List.length_eq_zero.mp h0)
    exact_mod_cast h0
  rw [sq_dev_sum, varNum]
  field_simp
  ring

theorem list_sum_pos_of_mem (l : List ℚ) (h0 : ∀ y ∈ l, 0 ≤ y) (y : ℚ)
    (hy : y ∈ l) (hpos : 0 < y) : 0 < l.sum := by
  induction l with
  | nil => cases hy
  | cons a t ih =>
    rw [List.sum_cons]
    rcases List.mem_cons.mp hy with rfl | hmem
    · exact add_pos_of_pos_of_nonneg hpos
        (List.sum_nonneg (fun z hz => h0 z (List.mem_cons_of_mem _ hz)))
    · exact add_pos_of_nonneg_of_pos (h0 a (List.mem_cons_self _ _))
        (ih (fun z hz => h0 z (List.mem_cons_of_mem _ hz)) hmem)

theorem varNum_pos (l : List ℚ) (a b : ℚ) (ha : a ∈ l) (hb : b ∈ l)
    (hab : a ≠ b) : 0 < varNum l := by
  have hne : l ≠ [] := by
    intro h
    rw [h] at ha
    cases ha
  have key : ∃ y ∈ l, y ≠ l.sum / l.length := by
    by_cases hA : a = l.sum / l.length
    · exact ⟨b, hb, fun h => hab (hA.trans h.symm)⟩
    · exact ⟨a, ha, hA⟩
  obtain ⟨y, hy, hym⟩ := key
  have hpos : 0 <
      (l.map (fun v =>
        (v - l.sum / l.length) * (v - l.sum / l.length))).sum := by
    apply list_sum_pos_of_mem _ ?_
      ((y - l.sum / l.length) * (y - l.sum / l.length)) ?_ ?_
    · intro z hz
      obtain ⟨w, _, rfl⟩ := List.mem_map.mp hz
      exact mul_self_nonneg _
    · exact List.mem_map.mpr ⟨y, hy, rfl⟩
    · exact mul_self_pos.mpr (sub_ne_zero.mpr hym)
  have hlen : (0 : ℚ) < l.length := by
    have h1 : 0 < l.length := List.length_pos.mpr hne
    exact_mod_cast h1
  rw [varNum_eq_sq_dev l hne]
  exact mul_pos hlen hpos

theorem entryAt_eq (cols : List (List (Option ℚ))) (i j : Nat)
    (hi : i < cols.length) (hj : j < cols.length) :
    entryAt cols i j
      = some (corrEntry (cols.getD i []) (cols.getD j [])) := by
  unfold entryAt corrMatrix
  rw [List.get?_map, List.get?_eq_get hi]
  simp only [Option.map_some', Option.some_bind]
  rw [List.get?_map, List.get?_eq_get hj]
  simp [List.get_eq_getElem, List.getD_eq_getElem?_getD,
    List.getElem?_eq_getElem hi, List.getElem?_eq_getElem hj]

/-- C9 (amended): the correlation matrix of any pivot table is symmetric,
and its diagonal entry at every non-constant column (a column whose
present values are not all equal) represents exactly the value `1.0`;
diagonal entries of constant or insufficiently observed columns are
missing (NaN), not `1.0`. -/
theorem c9_corr_symmetric_diag_one (cols : List (List (Option ℚ)))
    (i j : Nat) (hi : i < cols.length) (hj : j < cols.length) :
    entryAt cols i j = entryAt cols j i
    ∧ ((∃ a ∈ presentVals (cols.getD i []),
          ∃ b ∈ presentVals (cols.getD i []), a ≠ b) →
        ∃ e, entryAt cols i i = some e ∧ reprOneB e = true) := by
  constructor
  · rw [entryAt_eq cols i j hi hj, entryAt_eq cols j i hj hi, corrEntry_symm]
  · rintro ⟨a, ha, b, hb, hab⟩
    have hv := varNum_pos (presentVals (cols.getD i [])) a b ha hb hab
    refine ⟨some (varNum (presentVals (cols.getD i [])),
      varNum (presentVals (cols.getD i []))
        * varNum (presentVals (cols.getD i []))), ?_, ?_⟩
    · rw [entryAt_eq cols i i hi hi, corr_self_eq,
        if_neg (mul_pos hv hv).ne']
    · simp [reprOneB, ← List.getD_eq_getElem?_getD, hv]

/-- Witness for C9 (amended) at a two-column pivot with non-constant
first column. -/
theorem c9_corr_symmetric_diag_one_witness :
    entryAt [[some 1, some 2], [some 3, some 5]] 0 1
      = entryAt [[some 1, some 2], [some 3, some 5]] 1 0
    ∧ ∃ e, entryAt [[some 1, some 2], [some 3, some 5]] 0 0 = some e
        ∧ reprOneB e = true := by
  have h := c9_corr_symmetric_diag_one [[some 1, some 2], [some 3, some 5]]
    0 1 (by decide) (by decide)
  exact ⟨h.1, h.2 ⟨1, by decide, 2, by decide, by decide⟩⟩

/-- C9 counterexample: the pivot `[[1, 2], [5, 5]]` has a non-constant
first column, yet the diagonal entry of its constant second column is
missing (NaN), not exactly `1.0`. -/
theorem c9_counterexample :
    (∃ a ∈ presentVals ([[some 1, some 2],
        [some 5, some 5]].getD 0 []),
      ∃ b ∈ presentVals ([[some (1 : ℚ), some 2],
        [some 5, some 5]].getD 0 []), a ≠ b)
    ∧ entryAt [[some 1, some 2], [some 5, some 5]] 1 1 = some none
    ∧ reprOneB none = false := by
  refine ⟨⟨1, by decide, 2, by decide, by decide⟩, ?_, rfl⟩
  rw [entryAt_eq _ 1 1 (by decide) (by decide), corr_self_eq]
  have hl : presentVals ([[some (1 : ℚ), some 2],
      [some 5, some 5]].getD 1 []) = [5, 5] := rfl
  rw [hl]
  have hv : varNum [(5 : ℚ), 5] = 0 := by
    norm_num [varNum]
  rw [hv]
  norm_num
